import Mathlib

/-!
# Verification of the AI response-orchestration core

Shallow embedding of the repository's AI service layer (`AIService` in the
service module: credential validation, the buffered completion call
`generateResponse`, the streaming call `generateStreamingResponse`, and the
chunked document summarizer `generateSummary`), together with proofs of the
testable properties stated in the specification.

JavaScript string builtins used by the source (`split`, `startsWith`,
`slice`, `trim`, `Array.prototype.join`, `Array.prototype.pop`) are modelled
by small executable Lean functions over `String`/`List Char`.
-/

set_option autoImplicit false
set_option maxRecDepth 8192

namespace TrialV2

/-! ## Models of the JavaScript string builtins used by the source -/

/-- Model of `p.isPrefixOf`-style matching used for `String.prototype.startsWith`:
`listStarts p l = true` iff `p` is a prefix of `l`. -/
def listStarts : List Char → List Char → Bool
  | [], _ => true
  | _ :: _, [] => false
  | a :: as, b :: bs => a == b && listStarts as bs

/-- Model of JavaScript `s.startsWith(p)`. -/
def jsStartsWith (p s : String) : Bool :=
  listStarts p.data s.data

/-- Model of JavaScript `s.slice(n)` (drop the first `n` UTF-16 units;
here: the first `n` characters). -/
def jsDrop (n : Nat) (s : String) : String :=
  ⟨s.data.drop n⟩

/-- Model of JavaScript `s.split(sep)` for a single-character separator,
at the level of character lists.  `"".split(sep)` is `[""]`, and a trailing
separator produces a final empty field, exactly as in JavaScript. -/
def splitOnCharList (sep : Char) : List Char → List (List Char)
  | [] => [[]]
  | c :: cs =>
      match splitOnCharList sep cs with
      | [] => [[]]
      | g :: gs => if c = sep then [] :: g :: gs else (c :: g) :: gs

/-- Model of JavaScript `s.split(sep)` on strings. -/
def jsSplit (sep : Char) (s : String) : List String :=
  (splitOnCharList sep s.data).map (fun l => ⟨l⟩)

/-- Model of `lines.pop() || ''`: the last element of the array, with both the
empty-array case and a falsy (empty-string) last element collapsing to `""`. -/
def lastOr (d : String) : List String → String
  | [] => d
  | [x] => x
  | _ :: xs => lastOr d xs

/-- Model of the array left over after `lines.pop()`. -/
def dropLastList : List String → List String
  | [] => []
  | [_] => []
  | x :: xs => x :: dropLastList xs

/-- Model of JavaScript `arr.join(sep)` for arrays of strings. -/
def jsJoin (sep : String) : List String → String
  | [] => ""
  | [x] => x
  | x :: xs => x ++ sep ++ jsJoin sep xs

/-- The whitespace class trimmed by JavaScript `String.prototype.trim`:
the WhiteSpace production (tab, vertical tab, form feed, space, no-break
space, zero-width no-break space, and every Space_Separator code point \u2014
U+1680, U+2000..U+200A, U+202F, U+205F, U+3000) together with the
LineTerminator production (line feed, carriage return, line separator,
paragraph separator). -/
def isJsWhitespace (c : Char) : Bool :=
  c = ' ' || c = '\t' || c = '\n' || c = '\r' || c = '\x0b' || c = '\x0c' ||
  c = '\u00A0' || c = '\u1680' ||
  ('\u2000' ≤ c && c ≤ '\u200A') ||
  c = '\u2028' || c = '\u2029' || c = '\u202F' || c = '\u205F' ||
  c = '\u3000' || c = '\uFEFF'

/-- Model of JavaScript `s.trim()`. -/
def jsTrim (s : String) : String :=
  ⟨List.reverse (List.dropWhile isJsWhitespace
      (List.reverse (List.dropWhile isJsWhitespace s.data)))⟩

/-! ### Basic facts about the builtin models -/

theorem data_append (a b : String) : (a ++ b).data = a.data ++ b.data := rfl

theorem mk_data (s : String) : (⟨s.data⟩ : String) = s := rfl

theorem listStarts_iff (p l : List Char) :
    listStarts p l = true ↔ ∃ t, l = p ++ t := by
  induction p generalizing l with
  | nil =>
      simp [listStarts]
  | cons a as ih =>
      cases l with
      | nil => simp [listStarts]
      | cons b bs =>
          simp only [listStarts, Bool.and_eq_true, beq_iff_eq, ih]
          constructor
          · rintro ⟨rfl, t, rfl⟩
            exact ⟨t, rfl⟩
          · rintro ⟨t, h⟩
            cases h
            exact ⟨rfl, t, rfl⟩

theorem splitOnCharList_no_sep (sep : Char) (l : List Char) (h : sep ∉ l) :
    splitOnCharList sep l = [l] := by
  induction l with
  | nil => rfl
  | cons c cs ih =>
      have hc : c ≠ sep := fun hcs => h (hcs ▸ List.mem_cons_self c cs)
      have hcs : sep ∉ cs := fun hmem => h (List.mem_cons_of_mem c hmem)
      simp [splitOnCharList, ih hcs, hc]

theorem splitOnCharList_term_sep (sep : Char) (l : List Char) (h : sep ∉ l) :
    splitOnCharList sep (l ++ [sep]) = [l, []] := by
  induction l with
  | nil => simp [splitOnCharList]
  | cons c cs ih =>
      have hc : c ≠ sep := fun hcs => h (hcs ▸ List.mem_cons_self c cs)
      have hcs : sep ∉ cs := fun hmem => h (List.mem_cons_of_mem c hmem)
      simp [splitOnCharList, ih hcs, hc]

theorem jsTrim_of_all_whitespace (s : String)
    (h : ∀ c ∈ s.data, isJsWhitespace c = true) : jsTrim s = "" := by
  have h1 : List.dropWhile isJsWhitespace s.data = [] :=
    List.dropWhile_eq_nil_iff.mpr h
  simp [jsTrim, h1]

theorem jsJoin_length (sep : String) (l : List String) :
    (jsJoin sep l).length =
      (l.map String.length).sum + sep.length * (l.length - 1) := by
  induction l with
  | nil => simp [jsJoin]
  | cons x xs ih =>
      cases xs with
      | nil => simp [jsJoin]
      | cons y ys =>
          simp only [jsJoin, String.length_append, ih, List.map_cons,
            List.sum_cons, List.length_cons, Nat.add_sub_cancel]
          ring

/-! ## The streaming frame-processing loop of `generateStreamingResponse`

The source reads the response body in a loop: each read is decoded and
appended to `buffer`, `buffer` is split on `'\n'`, the last (possibly
partial) line is put back into `buffer`, and every complete line is handled:

```
if (line.startsWith('data: ') && line !== 'data: [DONE]') {
  try {
    const json = JSON.parse(line.slice(6));
    const content = json.choices[0]?.delta?.content;
    if (content) onChunk(content);
  } catch (e) { console.error('Error parsing streaming response:', e); }
}
```

`JSON.parse` followed by the `json.choices[0]?.delta?.content` access is a
platform builtin over arbitrary JSON; it is modelled by a parameter
`parse : String → Option (Option String)` where `none` means the parse threw
(caught and skipped), `some none` means the parse succeeded but no content
string was found, and `some (some c)` means content `c` was found (`c` is
then delivered only if non-empty, matching the `if (content)` truthiness
test).  The function body has no `return` statement: the promise resolves
with `undefined` once the transport reports `done`, which the embedding
records as `result = none`. -/

/-- One iteration of the source's `for (const line of lines)` body: the chunk
delivered to `onChunk` for this line, if any. -/
def handleLine (parse : String → Option (Option String)) (line : String) :
    Option String :=
  if jsStartsWith "data: " line && line != "data: [DONE]" then
    match parse (jsDrop 6 line) with
    | some (some content) => if content != "" then some content else none
    | some none => none
    | none => none
  else
    none

/-- The source's `while (true)` read loop: `reads` is the sequence of decoded
transport reads (ended by the reader reporting `done`), the second argument is
the current `buffer`.  Returns the chunks delivered to `onChunk`, in order.
Any leftover partial line in `buffer` at end-of-stream is discarded, as in the
source. -/
def processReads (parse : String → Option (Option String)) :
    List String → String → List String
  | [], _ => []
  | value :: rest, buffer =>
      (dropLastList (jsSplit '\n' (buffer ++ value))).filterMap
          (handleLine parse) ++
        processReads parse rest (lastOr "" (jsSplit '\n' (buffer ++ value)))

/-- Observable outcome of one `generateStreamingResponse` call: the chunks
delivered to `onChunk` in order, and the value the promise resolves with
(`none` models JavaScript `undefined`). -/
structure StreamOutcome where
  chunks : List String
  result : Option String

theorem streamOutcome_chunks (c : List String) (r : Option String) :
    (StreamOutcome.mk c r).chunks = c := rfl

/-- Embedding of `AIService.generateStreamingResponse`, restricted to the frame-processing
loop over an already-opened simulated transport.  The source never
accumulates the delivered text and its body ends without a `return`
statement, so the call resolves with `undefined` (`result = none`). -/
def generateStreamingResponse (parse : String → Option (Option String))
    (reads : List String) : StreamOutcome :=
  ⟨processReads parse reads "", none⟩

/-! ### A concrete frame decoder for simulated transports

`mockParse` instantiates the `parse` parameter: it accepts exactly the
provider's frame payload grammar
`\x7b"choices":[\x7b"delta":\x7b"content":"<plain text>"\x7d\x7d]\x7d`
(no escapes or quotes inside the text), extracts the content, treats the
empty object as parsed-but-contentless, and reports anything else as a
parse failure. -/

/-- Opening text of a well-formed frame payload, up to the content string. -/
def framePayloadHead : String :=
  "\x7b\"choices\":[\x7b\"delta\":\x7b\"content\":\""

/-- Closing text of a well-formed frame payload, after the content string. -/
def framePayloadTail : String :=
  "\"\x7d\x7d]\x7d"

/-- Concrete model of `JSON.parse` composed with the
`json.choices[0]?.delta?.content` access, for simulated transports. -/
def mockParse (payload : String) : Option (Option String) :=
  let n := payload.data.length - framePayloadHead.data.length -
    framePayloadTail.data.length
  if listStarts framePayloadHead.data payload.data &&
      listStarts framePayloadTail.data.reverse payload.data.reverse &&
      decide (framePayloadHead.data.length + framePayloadTail.data.length ≤
        payload.data.length) &&
      ((payload.data.drop framePayloadHead.data.length).take n).all
        (fun c => c != '"' && c != '\\') then
    some (some ⟨(payload.data.drop framePayloadHead.data.length).take n⟩)
  else if payload = "\x7b\x7d" then
    some none
  else
    none

/-- A well-formed data frame carrying `delta` as its content. -/
def mockFrame (delta : String) : String :=
  "data: " ++ framePayloadHead ++ delta ++ framePayloadTail

/-! ### Behaviour of the loop on line-per-read transports -/

theorem handleLine_done (parse : String → Option (Option String)) :
    handleLine parse "data: [DONE]" = none := rfl

/-- Master lemma: on a transport that delivers one newline-terminated line per
read, the loop delivers exactly the chunks `handleLine` extracts from each
line, in order. -/
theorem processReads_lines (parse : String → Option (Option String))
    (lines : List String) (h : ∀ l ∈ lines, '\n' ∉ l.data) :
    processReads parse (lines.map (fun l => l ++ "\n")) "" =
      lines.filterMap (handleLine parse) := by
  induction lines with
  | nil => rfl
  | cons line rest ih =>
      have hline : '\n' ∉ line.data := h line (List.mem_cons_self line rest)
      have hrest : ∀ l ∈ rest, '\n' ∉ l.data :=
        fun l hl => h l (List.mem_cons_of_mem line hl)
      have hsplit : jsSplit '\n' ("" ++ (line ++ "\n")) = [line, ""] := by
        have hdata : ("" ++ (line ++ "\n")).data = line.data ++ ['\n'] := rfl
        simp only [jsSplit, hdata, splitOnCharList_term_sep '\n' line.data hline]
        simp [mk_data]
      simp only [List.map_cons, processReads, hsplit]
      simp only [dropLastList, lastOr, List.filterMap_cons, List.filterMap_nil]
      rw [ih hrest]
      cases handleLine parse line <;> simp [List.filterMap_cons]

theorem filterMap_handleLine_of_forall2
    (parse : String → Option (Option String))
    (frames deltas : List String)
    (h : List.Forall₂ (fun f d => handleLine parse f = some d) frames deltas) :
    frames.filterMap (handleLine parse) = deltas := by
  induction h with
  | nil => rfl
  | cons h1 _ ih => simp [List.filterMap_cons, h1, ih]

theorem no_newline_in_done : '\n' ∉ ("data: [DONE]" : String).data := by decide

/-! ## Claim theorems: streaming (C1, C5, C6) -/

/-- C1 (amended): for a simulated transport emitting frames `f1..fn` (one
newline-terminated line per read), each decoding to delta `d1..dn`, followed
by the terminal marker `data: [DONE]`, `generateStreamingResponse` invokes
`onChunk` exactly with `d1..dn` in that order; the call then resolves with no
value (`undefined`): the accumulated text is not returned — callers must
concatenate the delivered deltas themselves. -/
theorem streaming_delivers_deltas_in_order_and_resolves_without_value
    (parse : String → Option (Option String)) (frames deltas : List String)
    (hnl : ∀ f ∈ frames, '\n' ∉ f.data)
    (hdec : List.Forall₂ (fun f d => handleLine parse f = some d) frames deltas) :
    (generateStreamingResponse parse
        ((frames ++ ["data: [DONE]"]).map (fun l => l ++ "\n"))).chunks =
      deltas ∧
    (generateStreamingResponse parse
        ((frames ++ ["data: [DONE]"]).map (fun l => l ++ "\n"))).result =
      none := by
  constructor
  · have hall : ∀ l ∈ frames ++ ["data: [DONE]"], '\n' ∉ l.data := by
      intro l hl
      rcases List.mem_append.mp hl with h1 | h1
      · exact hnl l h1
      · rcases List.mem_singleton.mp h1 with rfl
        exact no_newline_in_done
    show processReads parse _ "" = deltas
    rw [processReads_lines parse (frames ++ ["data: [DONE]"]) hall,
      List.filterMap_append]
    simp [handleLine_done, filterMap_handleLine_of_forall2 parse frames deltas hdec]
  · rfl

/-- C1 witness: a two-frame transport delivers both deltas in order and the
call resolves with no value. -/
theorem streaming_delivers_deltas_witness :
    (generateStreamingResponse mockParse
        (([mockFrame "He", mockFrame "llo"] ++ ["data: [DONE]"]).map
          (fun l => l ++ "\n"))).chunks = ["He", "llo"] ∧
    (generateStreamingResponse mockParse
        (([mockFrame "He", mockFrame "llo"] ++ ["data: [DONE]"]).map
          (fun l => l ++ "\n"))).result = none :=
  streaming_delivers_deltas_in_order_and_resolves_without_value mockParse
    [mockFrame "He", mockFrame "llo"] ["He", "llo"] (by decide)
    (by refine List.Forall₂.cons (by decide) (List.Forall₂.cons (by decide) ?_)
        exact List.Forall₂.nil)

/-- C1 counterexample: on a transport emitting one well-formed frame and then
the terminal marker, the delivered delta is `"Hello"`, but the call does not
return the accumulated text `"Hello"`: it resolves with no value. -/
theorem streaming_does_not_return_accumulated_text :
    (generateStreamingResponse mockParse
        [mockFrame "Hello" ++ "\n", "data: [DONE]\n"]).chunks = ["Hello"] ∧
    (generateStreamingResponse mockParse
        [mockFrame "Hello" ++ "\n", "data: [DONE]\n"]).result ≠
      some "Hello" ∧
    (generateStreamingResponse mockParse
        [mockFrame "Hello" ++ "\n", "data: [DONE]\n"]).result = none := by
  refine ⟨by decide, ?_, rfl⟩
  intro h
  exact Option.noConfusion h

/-- C5 (amended): the terminal frame value `data: [DONE]` itself never
invokes `onChunk`, but observing it does not end the stream: data-bearing
lines that follow it in the transport input are still decoded and delivered;
the loop ends only when the transport reports completion. -/
theorem terminal_marker_skipped_but_stream_continues
    (parse : String → Option (Option String)) (pre post : List String)
    (hpre : ∀ l ∈ pre, '\n' ∉ l.data) (hpost : ∀ l ∈ post, '\n' ∉ l.data) :
    handleLine parse "data: [DONE]" = none ∧
    (generateStreamingResponse parse
        ((pre ++ "data: [DONE]" :: post).map (fun l => l ++ "\n"))).chunks =
      pre.filterMap (handleLine parse) ++ post.filterMap (handleLine parse) := by
  refine ⟨rfl, ?_⟩
  have hall : ∀ l ∈ pre ++ "data: [DONE]" :: post, '\n' ∉ l.data := by
    intro l hl
    rcases List.mem_append.mp hl with h1 | h1
    · exact hpre l h1
    · rcases List.mem_cons.mp h1 with rfl | h2
      · exact no_newline_in_done
      · exact hpost l h2
  show processReads parse _ "" = _
  rw [processReads_lines parse (pre ++ "data: [DONE]" :: post) hall,
    List.filterMap_append, List.filterMap_cons]
  simp [handleLine_done]

/-- C5 witness: with one valid frame on each side of the terminal marker,
the marker contributes nothing but both deltas are delivered. -/
theorem terminal_marker_skipped_witness :
    handleLine mockParse "data: [DONE]" = none ∧
    (generateStreamingResponse mockParse
        (([mockFrame "A"] ++ "data: [DONE]" :: [mockFrame "B"]).map
          (fun l => l ++ "\n"))).chunks = ["A", "B"] := by
  have h := terminal_marker_skipped_but_stream_continues mockParse
    [mockFrame "A"] [mockFrame "B"] (by decide) (by decide)
  exact ⟨h.1, h.2.trans (by decide)⟩

/-- C5 counterexample: a data-bearing line that follows the terminal marker
in the transport input is still delivered to `onChunk`: after frames
`[A-frame, data: [DONE], B-frame]` the delivered chunks are `["A", "B"]`,
not `["A"]` as the claim requires. -/
theorem chunk_delivered_after_terminal_marker :
    (generateStreamingResponse mockParse
        [mockFrame "A" ++ "\n", "data: [DONE]\n", mockFrame "B" ++ "\n"]).chunks =
      ["A", "B"] ∧
    (["A", "B"] : List String) ≠ ["A"] := by
  refine ⟨by decide, by decide⟩

/-- C6: a frame whose JSON payload fails to parse (`parse` throws, modelled
by `none`) does not invoke `onChunk` and does not abort the stream: the
chunks delivered for a transport `pre ++ [bad] ++ post` are exactly those of
`pre` followed by those of `post`, in order. -/
theorem malformed_frame_skipped_stream_continues
    (parse : String → Option (Option String)) (pre post : List String)
    (bad : String)
    (hpre : ∀ l ∈ pre, '\n' ∉ l.data) (hpost : ∀ l ∈ post, '\n' ∉ l.data)
    (hbadnl : '\n' ∉ bad.data)
    (hdata : jsStartsWith "data: " bad = true) (hne : bad ≠ "data: [DONE]")
    (hfail : parse (jsDrop 6 bad) = none) :
    (generateStreamingResponse parse
        ((pre ++ bad :: post).map (fun l => l ++ "\n"))).chunks =
      pre.filterMap (handleLine parse) ++ post.filterMap (handleLine parse) := by
  have hbad : handleLine parse bad = none := by
    simp only [handleLine, hdata, hfail]
    simp [bne_iff_ne, hne]
  have hall : ∀ l ∈ pre ++ bad :: post, '\n' ∉ l.data := by
    intro l hl
    rcases List.mem_append.mp hl with h1 | h1
    · exact hpre l h1
    · rcases List.mem_cons.mp h1 with rfl | h2
      · exact hbadnl
      · exact hpost l h2
  show processReads parse _ "" = _
  rw [processReads_lines parse (pre ++ bad :: post) hall,
    List.filterMap_append, List.filterMap_cons, hbad]

/-- C6 witness: a frame with an unparseable payload between two valid frames
is skipped while both valid deltas are still delivered in order. -/
theorem malformed_frame_skipped_witness :
    (generateStreamingResponse mockParse
        (([mockFrame "A"] ++ "data: notjson" :: [mockFrame "B"]).map
          (fun l => l ++ "\n"))).chunks = ["A", "B"] := by
  have h := malformed_frame_skipped_stream_continues mockParse
    [mockFrame "A"] [mockFrame "B"] "data: notjson" (by decide) (by decide)
    (by decide) (by decide) (by decide) (by decide)
  exact h.trans (by decide)

/-! ## Credential validation and client construction

The source validates the credential with the regular expression
`^(sk-|ds-)[\w-]{10,}$` and, when it matches, builds the immutable
`APIConfig` whose base URL and model are selected by the `provider`
argument alone:

```
constructor(apiKey, provider = 'openai') {
  if (!this.validateApiKey(apiKey)) { throw new Error('Invalid API key format'); }
  this.config = {
    baseURL: provider === 'deepseek' ? 'https://api.deepseek.com/v1'
                                     : 'https://api.openai.com/v1',
    apiKey,
    model: provider === 'deepseek' ? 'deepseek-chat' : 'gpt-3.5-turbo' };
}
```

The constructor touches no transport, so the embedding takes no transport
argument: a failed validation yields the construction error with no network
call possible. -/

/-- The provider families supported by the service. -/
inductive Provider where
  | openai
  | deepseek
deriving DecidableEq

/-- The service configuration built by the constructor. -/
structure APIConfig where
  baseURL : String
  apiKey : String
  model : String
deriving DecidableEq

/-- The character class `[\w-]` of the credential regex
(ASCII word characters and the hyphen). -/
def isWordOrHyphen (c : Char) : Bool :=
  (('a' ≤ c && c ≤ 'z') || ('A' ≤ c && c ≤ 'Z') ||
   ('0' ≤ c && c ≤ '9') || c = '_' || c = '-')

/-- Embedding of `AIService.validateApiKey`: the semantics of the regular expression
`^(sk-|ds-)[\w-]{10,}$` — a three-character recognized prefix followed by at
least ten word-or-hyphen characters, and nothing else. -/
def validateApiKey (key : String) : Bool :=
  (jsStartsWith "sk-" key || jsStartsWith "ds-" key) &&
  decide (10 ≤ (jsDrop 3 key).length) &&
  (jsDrop 3 key).data.all isWordOrHyphen

/-- Embedding of `createAIService` / the `AIService` constructor: rejects a credential the
regex does not accept with the construction error, otherwise succeeds with
the configuration selected by the provider. -/
def createAIService (apiKey : String) (provider : Provider) :
    Except String APIConfig :=
  if validateApiKey apiKey then
    .ok ⟨(if provider = .deepseek then "https://api.deepseek.com/v1"
          else "https://api.openai.com/v1"),
         apiKey,
         (if provider = .deepseek then "deepseek-chat" else "gpt-3.5-turbo")⟩
  else
    .error "Invalid API key format"

/-- The credential shape recognized by the specification, stated from its
words: prefix `sk-` or `ds-` followed by at least 10 word/hyphen
characters. -/
def recognizedShape (key : String) : Prop :=
  ∃ rest : String, (key = "sk-" ++ rest ∨ key = "ds-" ++ rest) ∧
    10 ≤ rest.length ∧ ∀ c ∈ rest.data, isWordOrHyphen c = true

theorem jsDrop_of_starts (pre rest : String) (h : pre.data.length = 3) :
    jsDrop 3 (pre ++ rest) = rest := by
  simp only [jsDrop, data_append]
  rw [← h, List.drop_left]

theorem validateApiKey_iff (key : String) :
    validateApiKey key = true ↔ recognizedShape key := by
  constructor
  · intro h
    simp only [validateApiKey, Bool.and_eq_true, Bool.or_eq_true,
      decide_eq_true_eq, List.all_eq_true] at h
    obtain ⟨⟨hpre, hlen⟩, hall⟩ := h
    rcases hpre with hsk | hds
    · obtain ⟨t, ht⟩ := (listStarts_iff _ _).mp hsk
      refine ⟨⟨t⟩, Or.inl ?_, ?_, ?_⟩
      · apply String.ext
        simpa [data_append] using ht
      · have : jsDrop 3 key = ⟨t⟩ := by
          simp only [jsDrop, ht]
          rfl
        simpa [this] using hlen
      · have : jsDrop 3 key = ⟨t⟩ := by
          simp only [jsDrop, ht]
          rfl
        intro c hc
        exact hall c (by simpa [this] using hc)
    · obtain ⟨t, ht⟩ := (listStarts_iff _ _).mp hds
      refine ⟨⟨t⟩, Or.inr ?_, ?_, ?_⟩
      · apply String.ext
        simpa [data_append] using ht
      · have : jsDrop 3 key = ⟨t⟩ := by
          simp only [jsDrop, ht]
          rfl
        simpa [this] using hlen
      · have : jsDrop 3 key = ⟨t⟩ := by
          simp only [jsDrop, ht]
          rfl
        intro c hc
        exact hall c (by simpa [this] using hc)
  · rintro ⟨rest, hor, hlen, hall⟩
    have hdrop : jsDrop 3 key = rest := by
      rcases hor with rfl | rfl
      · exact jsDrop_of_starts "sk-" rest rfl
      · exact jsDrop_of_starts "ds-" rest rfl
    have hstart : jsStartsWith "sk-" key = true ∨ jsStartsWith "ds-" key = true := by
      rcases hor with rfl | rfl
      · exact Or.inl ((listStarts_iff _ _).mpr ⟨rest.data, rfl⟩)
      · exact Or.inr ((listStarts_iff _ _).mpr ⟨rest.data, rfl⟩)
    simp only [validateApiKey, Bool.and_eq_true, Bool.or_eq_true,
      decide_eq_true_eq, List.all_eq_true, hdrop]
    exact ⟨⟨hstart, hlen⟩, hall⟩

/-! ## Claim theorems: credentials (C7, C10) -/

/-- C7: construction succeeds exactly on credentials of the recognized
shape (prefix `sk-` or `ds-` followed by at least 10 word/hyphen
characters); any other credential fails immediately with the construction
error — the constructor takes no transport, so no network call is
possible. -/
theorem construction_succeeds_iff_recognized_shape
    (key : String) (provider : Provider) :
    (∃ cfg, createAIService key provider = .ok cfg) ↔ recognizedShape key := by
  constructor
  · rintro ⟨cfg, hcfg⟩
    rw [← validateApiKey_iff]
    by_contra hfalse
    have hb : validateApiKey key = false := by
      cases hv : validateApiKey key
      · rfl
      · exact absurd hv hfalse
    simp [createAIService, hb] at hcfg
  · intro hshape
    have hb : validateApiKey key = true := (validateApiKey_iff key).mpr hshape
    refine ⟨⟨(if provider = .deepseek then "https://api.deepseek.com/v1"
              else "https://api.openai.com/v1"), key,
             (if provider = .deepseek then "deepseek-chat"
              else "gpt-3.5-turbo")⟩, ?_⟩
    simp [createAIService, hb]

/-- C7 witness: a well-shaped credential constructs successfully, and a
malformed one is rejected with the construction error. -/
theorem construction_succeeds_iff_witness :
    (∃ cfg, createAIService "sk-abcdefghij" Provider.openai = .ok cfg) ∧
    createAIService "not-a-key" Provider.openai =
      .error "Invalid API key format" := by
  constructor
  · exact (construction_succeeds_iff_recognized_shape "sk-abcdefghij"
      Provider.openai).mpr ⟨"abcdefghij", Or.inl (by decide), by decide, by decide⟩
  · rfl

/-- C10: for every credential the regex accepts — whichever of the two
recognized prefixes it carries — construction succeeds with the endpoint
base URL and model selected solely by the provider argument: `openai` always
yields the OpenAI endpoint and model, `deepseek` always yields the DeepSeek
ones. -/
theorem endpoint_selected_by_provider_not_credential
    (key : String) (h : validateApiKey key = true) :
    createAIService key Provider.openai =
      .ok ⟨"https://api.openai.com/v1", key, "gpt-3.5-turbo"⟩ ∧
    createAIService key Provider.deepseek =
      .ok ⟨"https://api.deepseek.com/v1", key, "deepseek-chat"⟩ := by
  simp [createAIService, h]

/-- C10 witness: a `ds-` credential with provider `openai` is configured
with the OpenAI endpoint and model, and a `sk-` credential with provider
`deepseek` with the DeepSeek ones. -/
theorem endpoint_selected_by_provider_witness :
    createAIService "ds-abcdefghij" Provider.openai =
      .ok ⟨"https://api.openai.com/v1", "ds-abcdefghij", "gpt-3.5-turbo"⟩ ∧
    createAIService "sk-abcdefghij" Provider.deepseek =
      .ok ⟨"https://api.deepseek.com/v1", "sk-abcdefghij", "deepseek-chat"⟩ :=
  ⟨(endpoint_selected_by_provider_not_credential "ds-abcdefghij" (by decide)).1,
   (endpoint_selected_by_provider_not_credential "sk-abcdefghij" (by decide)).2⟩

/-! ## The buffered completion call `generateResponse`

```
async generateResponse(prompt) {
  if (!prompt.trim()) { return 'No content to analyze. Please provide input.'; }
  try {
    const response = await axios.post(..., { timeout: 30000 });
    return response.data.choices[0].message.content;
  } catch (error) {
    if (axios.isAxiosError(error)) {
      if (error.code === 'ECONNABORTED') throw new Error('Request timed out. Please try again.');
      if (error.response?.status === 401) throw new Error('Invalid API key. Please check your API key and try again.');
      if (error.response?.status === 429) throw new Error('Rate limit exceeded. Please try again in a few moments.');
      throw new Error(`API error: ...`);
    }
    throw new Error('Failed to connect to API. Please try again.');
  }
}
```

The transport (axios and the remote endpoint) is external; one call's
observable outcome is modelled by `TransportResult`.  A resolved body has
two distinct degenerate shapes with different behaviour:

* the property chain breaks before `content` (no `data.choices[0].message`
  object): the access inside the `try` throws a `TypeError`, which
  `axios.isAxiosError` rejects, so control reaches the final generic
  `throw` (`resolvedBroken`);
* `choices[0].message` exists but carries no `content` string: the access
  evaluates to `undefined` without throwing, and the source *returns it as a
  success* (`resolved none`).

In the axios-failure case `code`, `status` and the resolved interpolation
`error.response?.data?.error?.message || error.message` are carried as
fields. -/

/-- One transport outcome of the axios POST issued by `generateResponse`. -/
inductive TransportResult where
  /-- The request resolved and the access chain reached `content`:
  `some text` when `choices[0].message.content` is a string, `none` when
  `choices[0].message` exists but `content` is absent — the source then
  returns JavaScript `undefined` as a successful result. -/
  | resolved (content : Option String)
  /-- The request resolved but the body lacks the `data.choices[0].message`
  chain: the property access throws a `TypeError` inside the `try`, caught
  as a non-axios error. -/
  | resolvedBroken
  /-- The request rejected with an axios error (`error.code`,
  `error.response?.status`, and the resolved message interpolation). -/
  | axiosErr (code : Option String) (status : Option Nat) (msg : String)
  /-- The request rejected with a non-axios error. -/
  | otherErr
deriving DecidableEq

/-- Embedding of `AIService.generateResponse`: first component is the result
(the thrown message in the `Except.error` case; in the success case the
resolved value, where `none` models resolving with JavaScript `undefined`),
second component records whether the network transport was used at all. -/
def generateResponse (prompt : String) (transport : TransportResult) :
    Except String (Option String) × Bool :=
  if jsTrim prompt == "" then
    (.ok (some "No content to analyze. Please provide input."), false)
  else
    match transport with
    | .resolved content => (.ok content, true)
    | .resolvedBroken =>
        (.error "Failed to connect to API. Please try again.", true)
    | .axiosErr code status msg =>
        (if code == some "ECONNABORTED" then
           .error "Request timed out. Please try again."
         else if status == some 401 then
           .error "Invalid API key. Please check your API key and try again."
         else if status == some 429 then
           .error "Rate limit exceeded. Please try again in a few moments."
         else
           .error ("API error: " ++ msg), true)
    | .otherErr =>
        (.error "Failed to connect to API. Please try again.", true)

/-- The failure taxonomy of the specification. -/
inductive FailureClassification where
  | Timeout
  | Unauthorized
  | RateLimited
  | Malformed
  | Network
  | Unknown
deriving DecidableEq

/-- The classification the specification assigns to each failing transport
cause, stated from its words: `Timeout` when no response arrives in time
(axios code `ECONNABORTED`), `Unauthorized` on HTTP 401, `RateLimited` on
HTTP 429, `Malformed` for a response that cannot be parsed into the expected
shape (whether the chain breaks before `message` or `content` is simply
absent), `Network` for transport-level failures; `none` when the call
succeeds with actual content. -/
def causeClassification : TransportResult → Option FailureClassification
  | .resolved (some _) => none
  | .resolved none => some .Malformed
  | .resolvedBroken => some .Malformed
  | .axiosErr code status _ =>
      if code = some "ECONNABORTED" then some .Timeout
      else if status = some 401 then some .Unauthorized
      else if status = some 429 then some .RateLimited
      else some .Network
  | .otherErr => some .Network

/-! ## Claim theorems: buffered completion (C8, C9) -/

/-- C8 counterexample: the claim fails twice over.  First, a resolved body
whose `choices[0].message` carries no `content` — a `Malformed` cause — is
not surfaced as a failure at all: the call resolves successfully with
`undefined`, silently swallowing the malformed response.  Second, no
assignment of classifications to the surfaced error messages can match every
failing cause, because a body broken before `message` (cause `Malformed`)
and a non-axios transport failure (cause `Network`) surface the *same*
message `"Failed to connect to API. Please try again."`. -/
theorem no_message_classification_matches_every_cause :
    (generateResponse "hi" (.resolved none)).1 = .ok none ∧
    ¬ ∃ classOf : String → FailureClassification,
        ∀ (p : String) (t : TransportResult) (e : String),
          (generateResponse p t).1 = .error e →
          causeClassification t = some (classOf e) := by
  constructor
  · rfl
  · rintro ⟨classOf, h⟩
    have h1 := h "hi" .resolvedBroken
      "Failed to connect to API. Please try again." rfl
    have h2 := h "hi" .otherErr
      "Failed to connect to API. Please try again." rfl
    simp only [causeClassification] at h1 h2
    have h3 : FailureClassification.Malformed = FailureClassification.Network := by
      rw [Option.some.inj h1, Option.some.inj h2]
    exact FailureClassification.noConfusion h3

/-- C8 (amended): for a non-blank prompt, the `Timeout`, `Unauthorized` and
`RateLimited` causes each surface their own dedicated thrown message; a body
broken before `choices[0].message` and a non-axios transport failure both
surface the same generic `"Failed to connect to API. Please try again."`
(`Malformed` is not distinguished from `Network`); the remaining axios
failures surface `"API error: …"`; and a resolved body is returned as-is —
so when `choices[0].message` exists but `content` is absent, the call
resolves successfully with `undefined` and that malformed response is
silently swallowed rather than surfaced. -/
theorem every_failure_surfaced_with_message
    (p : String) (t : TransportResult) (hp : jsTrim p ≠ "") :
    (causeClassification t = some .Timeout →
      (generateResponse p t).1 = .error "Request timed out. Please try again.") ∧
    (causeClassification t = some .Unauthorized →
      (generateResponse p t).1 =
        .error "Invalid API key. Please check your API key and try again.") ∧
    (causeClassification t = some .RateLimited →
      (generateResponse p t).1 =
        .error "Rate limit exceeded. Please try again in a few moments.") ∧
    (t = .resolvedBroken ∨ t = .otherErr →
      (generateResponse p t).1 =
        .error "Failed to connect to API. Please try again.") ∧
    (∀ code status msg, t = .axiosErr code status msg →
      code ≠ some "ECONNABORTED" → status ≠ some 401 → status ≠ some 429 →
      (generateResponse p t).1 = .error ("API error: " ++ msg)) ∧
    (∀ c, t = .resolved c → (generateResponse p t).1 = .ok c) := by
  have hb : (jsTrim p == "") = false := by
    simp [beq_iff_eq]
    intro hcontra
    exact hp (by simpa using hcontra)
  cases t with
  | resolved content =>
      cases content with
      | none =>
          simp [generateResponse, hb, causeClassification]
      | some c =>
          simp [generateResponse, hb, causeClassification]
  | resolvedBroken =>
      simp [generateResponse, hb, causeClassification]
  | axiosErr code status msg =>
      simp only [generateResponse, hb, Bool.false_eq_true, if_false,
        causeClassification]
      by_cases hc : code = some "ECONNABORTED"
      · simp [hc]
      · by_cases h401 : status = some 401
        · simp [hc, h401]
        · by_cases h429 : status = some 429
          · simp [hc, h401, h429]
          · simp [hc, h401, h429]
  | otherErr =>
      simp [generateResponse, hb, causeClassification]

/-- C8 witness: with a non-blank prompt, a timed-out transport
(`code = ECONNABORTED`, cause `Timeout`) surfaces the timeout message, and a
resolved body whose `message` lacks `content` resolves successfully with
`undefined` (no error surfaced). -/
theorem every_failure_surfaced_witness :
    (generateResponse "hi" (.axiosErr (some "ECONNABORTED") none "x")).1 =
      .error "Request timed out. Please try again." ∧
    (generateResponse "hi" (.resolved none)).1 = .ok none :=
  ⟨(every_failure_surfaced_with_message "hi"
      (.axiosErr (some "ECONNABORTED") none "x") (by decide)).1 (by decide),
   (every_failure_surfaced_with_message "hi"
      (.resolved none) (by decide)).2.2.2.2.2 none rfl⟩

/-- C9: a prompt that is empty or consists only of whitespace (the full
class `String.prototype.trim` removes, Space_Separator code points
included) returns the fixed notice without consulting the transport at all
(the network flag is `false`) and without an error — for every transport
outcome, including failing ones. -/
theorem blank_prompt_short_circuits
    (p : String) (t : TransportResult)
    (h : ∀ c ∈ p.data, isJsWhitespace c = true) :
    generateResponse p t =
      (.ok (some "No content to analyze. Please provide input."), false) := by
  have htrim : jsTrim p = "" := jsTrim_of_all_whitespace p h
  simp [generateResponse, htrim]

/-- C9 witness: a prompt of space, tab, newline, thin space (U+2009) and
ideographic space (U+3000) returns the fixed notice with no network call
even when the transport would fail. -/
theorem blank_prompt_short_circuits_witness :
    generateResponse " \t\u2009\u3000" TransportResult.otherErr =
      (.ok (some "No content to analyze. Please provide input."), false) :=
  blank_prompt_short_circuits " \t\u2009\u3000" TransportResult.otherErr
    (by decide)

/-! ## The chunked document processor

`generateSummary` splits the document with `chunkText` (imported from the
utility module, whose source file is not among the provided files), issues
one completion per chunk, joins the per-chunk summaries with `'\n\n'`
(`summaries.join('\n\n')`), and issues one more completion when the joined
string is longer than 4000 characters:

```
async generateSummary(text) {
  const chunks = chunkText(text);
  const summaries = await Promise.all(chunks.map(chunk =>
    this.generateResponse(`Please provide a very concise summary of this text section:\n\n${chunk}`)));
  const combinedSummary = summaries.join('\n\n');
  if (combinedSummary.length > 4000) {
    return this.generateResponse(
      `Please provide a final concise summary combining these section summaries:\n\n${combinedSummary}`);
  }
  return combinedSummary;
}
```

The per-chunk completions are modelled by a function
`completeFn : String → String` from prompt to returned text (the all-success
case the chunked-processing claims are about). -/

/-- Modelled from the spec: `chunkText` lives in the repository's utility
module (`./utils`), which is not among the provided source files.  The spec
describes `splitDocument(text, chunkSizeBudget)` as a deterministic,
lossless split on a fixed character budget — consecutive budget-sized
pieces, the last one shorter — and its example scenario fixes the budget
used by `generateSummary` at 4000 characters.  `fuel` bounds the recursion
and is instantiated with the document length; `max b 1` only totalizes the
(out-of-contract) zero-budget case. -/
def chunkListFuel (b : Nat) : Nat → List Char → List (List Char)
  | _, [] => []
  | 0, l => [l]
  | fuel + 1, c :: cs =>
      ((c :: cs).take (max b 1)) ::
        chunkListFuel b fuel ((c :: cs).drop (max b 1))

/-- Modelled from the spec: `chunkText` / `splitDocument` on strings, with
explicit budget. -/
def chunkText (budget : Nat) (text : String) : List String :=
  (chunkListFuel budget text.data.length text.data).map (fun l => ⟨l⟩)

/-- Opening text of the per-chunk summary prompt. -/
def summaryPromptHead : String :=
  "Please provide a very concise summary of this text section:\n\n"

/-- Opening text of the merge (summary-of-summaries) prompt. -/
def mergePromptHead : String :=
  "Please provide a final concise summary combining these section summaries:\n\n"

/-- Observable outcome of one `generateSummary` call: the returned text and
the number of additional merge completions issued. -/
structure SummaryOutcome where
  result : String
  mergeCalls : Nat
deriving DecidableEq

/-- Embedding of `AIService.generateSummary`, with the per-chunk completion modelled by
`completeFn` (all chunk calls succeed; their prompts are the source's
template applied to each chunk in order). -/
def generateSummary (completeFn : String → String) (text : String) :
    SummaryOutcome :=
  let summaries := (chunkText 4000 text).map
    (fun chunk => completeFn (summaryPromptHead ++ chunk))
  if (jsJoin "\n\n" summaries).length > 4000 then
    ⟨completeFn (mergePromptHead ++ jsJoin "\n\n" summaries), 1⟩
  else
    ⟨jsJoin "\n\n" summaries, 0⟩

/-! ### Structure of the split -/

theorem chunkListFuel_step (b fuel : Nat) (l : List Char) (hne : l ≠ []) :
    chunkListFuel b (fuel + 1) l =
      l.take (max b 1) :: chunkListFuel b fuel (l.drop (max b 1)) := by
  cases l with
  | nil => exact absurd rfl hne
  | cons c cs => rfl

theorem chunkListFuel_flatten (b : Nat) :
    ∀ (fuel : Nat) (l : List Char), l.length ≤ fuel →
      (chunkListFuel b fuel l).flatten = l := by
  intro fuel
  induction fuel with
  | zero =>
      intro l hl
      have : l = [] := List.eq_nil_of_length_eq_zero (Nat.le_zero.mp hl)
      subst this
      rfl
  | succ fuel ih =>
      intro l hl
      cases l with
      | nil => rfl
      | cons c cs =>
          have hbound : ((c :: cs).drop (max b 1)).length ≤ fuel := by
            have h1 : 1 ≤ max b 1 := Nat.le_max_right b 1
            have h2 : ((c :: cs).drop (max b 1)).length =
                (c :: cs).length - max b 1 := List.length_drop _ _
            simp only [List.length_cons] at h2 hl
            omega
          rw [chunkListFuel_step b fuel (c :: cs) (by simp)]
          rw [List.flatten_cons]
          rw [ih ((c :: cs).drop (max b 1)) hbound]
          exact List.take_append_drop (max b 1) (c :: cs)

theorem string_join_map_mk (ls : List (List Char)) :
    ∀ acc : String, List.foldl (fun r s => r ++ s) acc
        (ls.map (fun l => (⟨l⟩ : String))) = ⟨acc.data ++ ls.flatten⟩ := by
  induction ls with
  | nil =>
      intro acc
      simp
  | cons l ls ih =>
      intro acc
      simp only [List.map_cons, List.foldl_cons, ih]
      apply String.ext
      simp [data_append]

/-! ## Claim theorems: chunked documents (C2, C3, C4) -/

/-- C2: for every document `D` and budget `B > 0`, concatenating the chunks
of `chunkText B D` in order reproduces `D` exactly — a deterministic,
lossless, pure partition with no overlap and no trimming (`chunkText` is a
pure function, so the same input and budget always yields the same
chunks). -/
theorem splitDocument_roundtrip (D : String) (B : Nat) (h : 0 < B) :
    String.join (chunkText B D) = D := by
  show List.foldl (fun r s => r ++ s) "" _ = D
  rw [chunkText, string_join_map_mk]
  apply String.ext
  show ("" : String).data ++ (chunkListFuel B D.data.length D.data).flatten =
    D.data
  rw [chunkListFuel_flatten B D.data.length D.data (Nat.le_refl _)]
  rfl

/-- C2 witness: a concrete document and budget round-trip. -/
theorem splitDocument_roundtrip_witness :
    0 < 3 ∧ String.join (chunkText 3 "hello world") = "hello world" :=
  ⟨by decide, splitDocument_roundtrip "hello world" 3 (by decide)⟩

/-! ### Evaluation of the split on the spec's example-scenario documents -/

theorem chunkListFuel_nil (b fuel : Nat) : chunkListFuel b fuel [] = [] := by
  cases fuel <;> rfl

theorem chunkListFuel_pos_step (b fuel : Nat) (l : List Char) (hne : l ≠ [])
    (hf : 0 < fuel) :
    chunkListFuel b fuel l =
      l.take (max b 1) :: chunkListFuel b (fuel - 1) (l.drop (max b 1)) := by
  cases fuel with
  | zero => exact absurd hf (by omega)
  | succ f => simpa using chunkListFuel_step b f l hne

theorem replicate_ne_nil_of_pos (n : Nat) (a : Char) (h : 0 < n) :
    List.replicate n a ≠ [] := by
  intro hc
  have hlen := congrArg List.length hc
  rw [List.length_replicate] at hlen
  simp only [List.length_nil] at hlen
  omega

/-- An 8,000-character document (for the merge-threshold counterexample). -/
def doc8000 : String := ⟨List.replicate 8000 'a'⟩

/-- The spec's example-scenario document of 9,000 characters. -/
def doc9000 : String := ⟨List.replicate 9000 'a'⟩

/-- The example scenario's mock chunk summary of fixed length 50. -/
def sum50 : String := ⟨List.replicate 50 's'⟩

theorem chunkText_doc8000 :
    chunkText 4000 doc8000 =
      [⟨List.replicate 4000 'a'⟩, ⟨List.replicate 4000 'a'⟩] := by
  have hmax : max 4000 1 = 4000 := by omega
  show (chunkListFuel 4000 (List.replicate 8000 'a').length
      (List.replicate 8000 'a')).map (fun l => (⟨l⟩ : String)) = _
  rw [List.length_replicate]
  rw [chunkListFuel_pos_step 4000 8000 _ (replicate_ne_nil_of_pos 8000 'a' (by norm_num)) (by norm_num), hmax,
    List.take_replicate, List.drop_replicate,
    (by omega : (4000 : Nat) ⊓ 8000 = 4000),
    (by norm_num : (8000 : Nat) - 4000 = 4000),
    (by norm_num : (8000 : Nat) - 1 = 7999)]
  rw [chunkListFuel_pos_step 4000 7999 _ (replicate_ne_nil_of_pos 4000 'a' (by norm_num)) (by norm_num), hmax,
    List.take_replicate, List.drop_replicate,
    (by omega : (4000 : Nat) ⊓ 4000 = 4000),
    (by norm_num : (4000 : Nat) - 4000 = 0)]
  rw [List.replicate_zero, chunkListFuel_nil]
  rfl

theorem chunkText_doc9000 :
    chunkText 4000 doc9000 =
      [⟨List.replicate 4000 'a'⟩, ⟨List.replicate 4000 'a'⟩,
       ⟨List.replicate 1000 'a'⟩] := by
  have hmax : max 4000 1 = 4000 := by omega
  show (chunkListFuel 4000 (List.replicate 9000 'a').length
      (List.replicate 9000 'a')).map (fun l => (⟨l⟩ : String)) = _
  rw [List.length_replicate]
  rw [chunkListFuel_pos_step 4000 9000 _ (replicate_ne_nil_of_pos 9000 'a' (by norm_num)) (by norm_num), hmax,
    List.take_replicate, List.drop_replicate,
    (by omega : (4000 : Nat) ⊓ 9000 = 4000),
    (by norm_num : (9000 : Nat) - 4000 = 5000),
    (by norm_num : (9000 : Nat) - 1 = 8999)]
  rw [chunkListFuel_pos_step 4000 8999 _ (replicate_ne_nil_of_pos 5000 'a' (by norm_num)) (by norm_num), hmax,
    List.take_replicate, List.drop_replicate,
    (by omega : (4000 : Nat) ⊓ 5000 = 4000),
    (by norm_num : (5000 : Nat) - 4000 = 1000),
    (by norm_num : (8999 : Nat) - 1 = 8998)]
  rw [chunkListFuel_pos_step 4000 8998 _ (replicate_ne_nil_of_pos 1000 'a' (by norm_num)) (by norm_num), hmax,
    List.take_replicate, List.drop_replicate,
    (by omega : (4000 : Nat) ⊓ 1000 = 1000),
    (by norm_num : (1000 : Nat) - 4000 = 0)]
  rw [List.replicate_zero, chunkListFuel_nil]
  rfl

theorem generateSummary_doc9000 :
    generateSummary (fun _ => sum50) doc9000 =
      ⟨sum50 ++ "\n\n" ++ (sum50 ++ "\n\n" ++ sum50), 0⟩ := by
  simp only [generateSummary, chunkText_doc9000, List.map_cons, List.map_nil]
  rw [if_neg (by decide)]
  rfl

/-- C3 (amended): `generateSummary` issues exactly one additional merge
completion when the per-chunk summaries *joined with blank-line separators*
(`summaries.join('\n\n')`) exceed 4000 characters — that is, when the total
summary length plus 2 per separator exceeds 4000 — and otherwise issues no
merge call and returns the `'\n\n'`-joined summaries in original chunk order
(which coincides with their pure concatenation only for a single chunk). -/
theorem merge_call_iff_joined_length_over_budget
    (f : String → String) (text : String) :
    ((generateSummary f text).mergeCalls =
      if 4000 <
          (((chunkText 4000 text).map
              (fun chunk => f (summaryPromptHead ++ chunk))).map
            String.length).sum +
          2 * (((chunkText 4000 text).map
              (fun chunk => f (summaryPromptHead ++ chunk))).length - 1)
        then 1 else 0) ∧
    ((((chunkText 4000 text).map
          (fun chunk => f (summaryPromptHead ++ chunk))).map
        String.length).sum +
        2 * (((chunkText 4000 text).map
            (fun chunk => f (summaryPromptHead ++ chunk))).length - 1) ≤ 4000 →
      (generateSummary f text).result =
        jsJoin "\n\n" ((chunkText 4000 text).map
          (fun chunk => f (summaryPromptHead ++ chunk)))) := by
  have hsep : ("\n\n" : String).length = 2 := rfl
  have hlen := jsJoin_length "\n\n"
    ((chunkText 4000 text).map (fun chunk => f (summaryPromptHead ++ chunk)))
  rw [hsep] at hlen
  constructor
  · simp only [generateSummary]
    rw [hlen]
    split
    · rfl
    · rfl
  · intro hle
    simp only [generateSummary]
    rw [hlen, if_neg (by omega)]

/-- C3 witness: a single-chunk document whose summary is under budget
returns the (trivially joined) summary with zero merge calls. -/
theorem merge_call_threshold_witness :
    (generateSummary (fun _ => "S") "ab").mergeCalls = 0 ∧
    (generateSummary (fun _ => "S") "ab").result = "S" := by
  have h := merge_call_iff_joined_length_over_budget (fun _ => "S") "ab"
  have hchab : chunkText 4000 "ab" = ["ab"] := by decide
  rw [hchab] at h
  constructor
  · rw [h.1]
    decide
  · rw [h.2 (by decide)]
    decide

/-- C3 counterexample: an 8,000-character document splits into two chunks;
with every chunk summary equal to `"A"`, the concatenated summaries `"AA"`
(2 characters) are far under the 4000 budget, yet `generateSummary` does not
return that concatenation: it returns the blank-line-joined `"A\n\nA"`. -/
theorem under_budget_result_is_joined_not_concatenated :
    (generateSummary (fun _ => "A") doc8000).mergeCalls = 0 ∧
    (generateSummary (fun _ => "A") doc8000).result = "A" ++ "\n\n" ++ "A" ∧
    (generateSummary (fun _ => "A") doc8000).result ≠ "A" ++ "A" := by
  have houtcome : generateSummary (fun _ => "A") doc8000 =
      ⟨"A" ++ "\n\n" ++ "A", 0⟩ := by
    simp only [generateSummary, chunkText_doc8000, List.map_cons, List.map_nil]
    rw [if_neg (by decide)]
    rfl
  rw [houtcome]
  refine ⟨rfl, rfl, by decide⟩

/-- C4 (amended): the spec's example scenario — a 9,000-character document,
chunk budget 4,000, every chunk summary of fixed length 50 — produces 3
chunks of lengths `[4000, 4000, 1000]` and issues zero merge calls, but the
returned string is the *154*-character blank-line join of the three
summaries (50 + 2 + 50 + 2 + 50), not a 150-character pure
concatenation. -/
theorem example_scenario_returns_154_char_join :
    (chunkText 4000 doc9000).map String.length = [4000, 4000, 1000] ∧
    (generateSummary (fun _ => sum50) doc9000).mergeCalls = 0 ∧
    (generateSummary (fun _ => sum50) doc9000).result =
      sum50 ++ "\n\n" ++ (sum50 ++ "\n\n" ++ sum50) ∧
    (generateSummary (fun _ => sum50) doc9000).result.length = 154 := by
  refine ⟨?_, ?_, ?_, ?_⟩
  · rw [chunkText_doc9000, List.map_cons, List.map_cons, List.map_cons,
      List.map_nil]
    have e1 : String.length ⟨List.replicate 4000 'a'⟩ = 4000 := by
      show (List.replicate 4000 'a').length = 4000
      rw [List.length_replicate]
    have e2 : String.length ⟨List.replicate 1000 'a'⟩ = 1000 := by
      show (List.replicate 1000 'a').length = 1000
      rw [List.length_replicate]
    rw [e1, e2]
  · rw [generateSummary_doc9000]
  · rw [generateSummary_doc9000]
  · rw [generateSummary_doc9000]
    decide

/-- C4 counterexample: in the example scenario the returned summary has
length 154, not the 150 the claim requires. -/
theorem example_scenario_not_150_chars :
    (generateSummary (fun _ => sum50) doc9000).result.length = 154 ∧
    (generateSummary (fun _ => sum50) doc9000).result.length ≠ 150 := by
  rw [generateSummary_doc9000]
  exact ⟨by decide, by decide⟩

end TrialV2
